import Mathlib

/-!
# Verification of the SBADA-GAN training loop (`methods/sbada-gan/train.py`)

This file shallowly embeds the training orchestrator of `train.py`:
the configuration dictionaries (including the rebinding of the `config`
variable at line 92), the curriculum gate for the `eta` weight
(lines 45, 125-126), the per-iteration loss assembly (lines 128-162),
the optimizer pass (lines 164-167), and the epoch/checkpoint arithmetic
(lines 66-67, 174-211).  Machine floats only ever hold exactly
representable values in the arithmetic we model (`0.75` and products of
small integers), so rationals (`ℚ`) model them exactly.
-/

set_option maxRecDepth 100000

/-- Configuration keys occurring in `train.py`.  The YAML config and the
dict literal at line 92 are string-keyed; only these fixed keys occur, so
an enumeration models the strings. -/
inductive Key where
  | alpha | beta | gamma | mu | new | eta
  | batch_size | pool_size | lr | weight_decay
  | weight | gen_init | dis_init | betas
deriving DecidableEq, BEq

/-- A YAML / Python-dict value as used by `train.py`: a scalar, the
`(0.5, 0.999)` betas tuple, or a nested table. -/
inductive ConfigVal where
  | num : ℚ → ConfigVal
  | pair : ℚ → ℚ → ConfigVal
  | table : List (Key × ConfigVal) → ConfigVal

/-- Python `d[k]` on a dict: first matching key, `none` when the key is
absent (which Python reports as a `KeyError`) or the value is not a dict. -/
def ConfigVal.lookup : ConfigVal → Key → Option ConfigVal
  | .table entries, k => entries.lookup k
  | .num _, _ => none
  | .pair _ _, _ => none

/-- Python exceptions that the embedded fragment can raise. -/
inductive PyError where
  | keyError : Key → PyError
  | typeError : PyError
deriving DecidableEq

/-- The dict literal bound to the name `config` at line 92 of `train.py`:
`config = {'lr': lr, 'weight_decay': weight_decay, 'betas': (0.5, 0.999)}`.
It shadows the YAML configuration that was bound to `config` at line 38. -/
def optimConfig (lr weight_decay : ℚ) : ConfigVal :=
  .table [(.lr, .num lr), (.weight_decay, .num weight_decay),
          (.betas, .pair (1/2) (999/1000))]

/-- The YAML configuration of line 38, with the nested `weight` table.
The scalar values are parameters; `train.py` reads them at lines 40-49. -/
def yamlConfig (alpha beta gamma mu new eta batch_size pool_size lr
    weight_decay : ℚ) : ConfigVal :=
  .table [(.weight, .table [(.alpha, .num alpha), (.beta, .num beta),
            (.gamma, .num gamma), (.mu, .num mu), (.new, .num new),
            (.eta, .num eta)]),
          (.batch_size, .num batch_size), (.pool_size, .num pool_size),
          (.lr, .num lr), (.weight_decay, .num weight_decay)]

/-- Line 126, `eta = config['weight']['eta']`: two dict lookups, each
raising `KeyError` on a missing key. -/
def etaFromConfig (cfg : ConfigVal) : Except PyError ℚ :=
  match cfg.lookup .weight with
  | none => .error (.keyError .weight)
  | some w =>
    match w.lookup .eta with
    | none => .error (.keyError .eta)
    | some (.num q) => .ok q
    | some _ => .error .typeError

/-- Lines 66-67: `n_sample = max(len(src_train), len(tgt_train))`;
`iter_per_epoch = n_sample // batch_size + 1`. -/
def iter_per_epoch (nSrc nTgt batch_size : ℕ) : ℕ :=
  max nSrc nTgt / batch_size + 1

/-- Line 125: the float comparison
`niter >= num_epochs * 0.75 * iter_per_epoch`.  All quantities involved
are exactly representable, so the rational comparison is exact. -/
def curriculumHit (num_epochs ipe niter : ℕ) : Prop :=
  (niter : ℚ) ≥ (num_epochs : ℚ) * (3/4) * (ipe : ℚ)

/-- The curriculum comparison over `ℚ` is equivalent to an integer
comparison: `niter ≥ ne·(3/4)·ipe  ↔  3·(ne·ipe) ≤ 4·niter`. -/
theorem curriculumHit_iff (num_epochs ipe niter : ℕ) :
    curriculumHit num_epochs ipe niter ↔ 3 * (num_epochs * ipe) ≤ 4 * niter := by
  unfold curriculumHit
  rw [ge_iff_le, show ((3 : ℚ)/4) = 3/4 from rfl,
    ← Nat.cast_le (α := ℚ) (m := 3 * (num_epochs * ipe)) (n := 4 * niter)]
  push_cast
  constructor <;> intro h <;> nlinarith [h]

instance (num_epochs ipe niter : ℕ) : Decidable (curriculumHit num_epochs ipe niter) :=
  decidable_of_iff _ (curriculumHit_iff num_epochs ipe niter).symm

/-- The loop-carried observable state of the `while True` loop
(lines 117-211): the iteration counter `niter`, the current `eta`
weight, the last computed `epoch` value (line 175), the list of epochs
at which a checkpoint was written (lines 203-208), whether the `break`
at line 211 has executed, and a pending uncaught exception. -/
structure LoopSt where
  niter : ℕ
  eta : ℚ
  epoch : ℕ
  ckpts : List ℕ
  done : Bool
  err : Option PyError
deriving DecidableEq

/-- State before the first iteration: `eta = 0.0` at line 45,
`niter = 0` at line 117. -/
def initSt : LoopSt :=
  { niter := 0, eta := 0, epoch := 0, ckpts := [], done := false, err := none }

/-- Lines 174-211, the epoch-boundary block: when
`niter % iter_per_epoch == 0`, set `epoch = niter // iter_per_epoch`
(line 175), checkpoint when `epoch % 50 == 0` (lines 203-208), and
`break` when `epoch >= num_epochs` (lines 210-211). -/
def epochBoundary (num_epochs ipe niter : ℕ) (eta : ℚ) (s : LoopSt) : LoopSt :=
  if niter % ipe = 0 then
    let epoch := niter / ipe
    let ckpts := if epoch % 50 = 0 then s.ckpts ++ [epoch] else s.ckpts
    { s with niter := niter, eta := eta, epoch := epoch, ckpts := ckpts,
             done := decide (epoch ≥ num_epochs) }
  else
    { s with niter := niter, eta := eta }

/-- One pass of the loop body (lines 118-211).  A state whose `break`
already ran or whose exception is pending is absorbing.  `cfg` is the
value of the Python variable `config` while the loop runs, i.e. the
line-92 dict.  The increment at line 119, the curriculum gate at
lines 125-126 (whose failed lookup aborts the iteration with the
exception), and the epoch-boundary block follow in source order. -/
def stepIter (num_epochs ipe : ℕ) (cfg : ConfigVal) (s : LoopSt) : LoopSt :=
  if s.done || s.err.isSome then s
  else if curriculumHit num_epochs ipe (s.niter + 1) then
    match etaFromConfig cfg with
    | .error e => { s with niter := s.niter + 1, err := some e }
    | .ok eta => epochBoundary num_epochs ipe (s.niter + 1) eta s
  else
    epochBoundary num_epochs ipe (s.niter + 1) s.eta s

/-- The loop state after `n` executions of the loop body. -/
def runLoop (num_epochs ipe : ℕ) (cfg : ConfigVal) (n : ℕ) : LoopSt :=
  (stepIter num_epochs ipe cfg)^[n] initSt

/-! ## Modules, autograd provenance, and the per-iteration forward pass -/

/-- The six trainable modules of `train.py` (lines 72-90).  The Adam
optimizer `opt_gen` covers the first four (lines 93-95), `opt_dis` the
last two (line 96). -/
inductive NetModule where
  | gen_s_t | gen_t_s | cls_s | cls_t | dis_s | dis_t
deriving DecidableEq

/-- Lines 93-95: `opt_gen = Adam(chain(gen_s_t.parameters(),
gen_t_s.parameters(), cls_s.parameters(), cls_t.parameters()), ...)`. -/
def gen_group : List NetModule := [.gen_s_t, .gen_t_s, .cls_s, .cls_t]

/-- Line 96: `opt_dis = Adam(chain(dis_s.parameters(), dis_t.parameters()), ...)`. -/
def dis_group : List NetModule := [.dis_s, .dis_t]

/-- A tensor in the autograd graph: its value together with the list of
trainable modules a backward pass from it reaches (with one entry per
module application in the graph, so repeated applications repeat). -/
structure GTensor (α : Type) where
  val : α
  grad : List NetModule

/-- A leaf tensor (input data, or a tensor created under
`torch.no_grad()`): backward reaches no module through it. -/
def GTensor.leaf (v : α) : GTensor α := ⟨v, []⟩

/-- `x.detach()`: same value, cut out of the autograd graph. -/
def GTensor.detach (x : GTensor α) : GTensor α := ⟨x.val, []⟩

/-- Applying a trainable module records it in the provenance. -/
def applyNet (m : NetModule) (f : α → β) (x : GTensor α) : GTensor β :=
  ⟨f x.val, m :: x.grad⟩

/-- `F.cross_entropy(logits, target)` as a graph node: the integer
target contributes its own (always empty, in this program) provenance. -/
def ceT (ce : α → β → ℚ) (l : GTensor α) (y : GTensor β) : GTensor ℚ :=
  ⟨ce l.val y.val, l.grad ++ y.grad⟩

/-- `calc_ls(out, is_real)` as a graph node; the boolean target is a
constant. -/
def lsT (ls : α → Bool → ℚ) (d : GTensor α) (b : Bool) : GTensor ℚ :=
  ⟨ls d.val b, d.grad⟩

/-- Scalar-weight multiplication of a loss tensor. -/
def smulT (c : ℚ) (x : GTensor ℚ) : GTensor ℚ := ⟨c * x.val, x.grad⟩

/-- `+` / `+=` on loss tensors. -/
def addT (x y : GTensor ℚ) : GTensor ℚ := ⟨x.val + y.val, x.grad ++ y.grad⟩

/-- The random draws one `ImagePool.query` consumes per image: a
uniform `coin` in `[0,1)` and a uniform stored `slot` index. -/
structure PoolRand where
  coin : ℚ
  slot : ℕ

/-- Modelled from the spec: `util/image_pool.py` is not under `src/`;
§4.1 of the spec gives the per-image behavior of `query`.  Buffer below
capacity: append the new image and return it unchanged.  At capacity:
with probability 0.5 (coin < 1/2) return a uniformly random stored
image and overwrite its slot with the new image; otherwise return the
new image and leave the buffer unchanged. -/
def poolQueryOne (p : List α) (capacity : ℕ) (r : PoolRand) (x : α) :
    List α × α :=
  if p.length < capacity then (p ++ [x], x)
  else if r.coin < 1/2 then
    let i := r.slot % capacity
    (p.set i x, p.getD i x)
  else (p, x)

/-- Modelled from the spec: a history pool with capacity
`pool_size * batch_size` (lines 101-102 of `train.py`) and its stored
images. -/
structure ImagePool (α : Type) where
  capacity : ℕ
  images : List α

/-- Modelled from the spec: the image-by-image traversal of a batch,
threading the buffer and consuming one random draw per image, with the
output batch kept in input order. -/
def poolQueryGo (capacity : ℕ) (rs : ℕ → PoolRand) (buf : List α) (k : ℕ) :
    List α → List α × List α
  | [] => (buf, [])
  | x :: tl =>
    let out := poolQueryOne buf capacity (rs k) x
    let rest := poolQueryGo capacity rs out.1 (k + 1) tl
    (rest.1, out.2 :: rest.2)

/-- Modelled from the spec: `query` maps a batch image-by-image through
`poolQueryOne` and returns the output batch together with the updated
pool. -/
def ImagePool.query (p : ImagePool α) (rs : ℕ → PoolRand) (xs : List α) :
    ImagePool α × List α :=
  let r := poolQueryGo p.capacity rs p.images 0 xs
  ({ p with images := r.1 }, r.2)

/-- The black-box networks and loss primitives the orchestrator calls
(spec §6): a batch of images is a `List γ`, a logits batch `Lgt`, a
label batch `Lbl`, a discriminator output `Dout`.  `cross_entropy`
models `F.cross_entropy` (line 99), `lsgan` models
`GANLoss(device, use_lsgan=True)` (line 98), `argmax1` models
`torch.max(·, dim=1)[1]` (line 133). -/
structure Nets (γ Lgt Lbl Dout : Type) where
  gen_s_t : List γ → List γ
  gen_t_s : List γ → List γ
  cls_s : List γ → Lgt
  cls_t : List γ → Lgt
  dis_s : List γ → Dout
  dis_t : List γ → Dout
  cross_entropy : Lgt → Lbl → ℚ
  lsgan : Dout → Bool → ℚ
  argmax1 : Lgt → Lbl

/-- Everything lines 128-162 of `train.py` produce in one iteration:
the generated batches (after the detach of lines 150-152), the frozen
pseudo-labels, the three loss tensors, and the updated pools. -/
structure IterOut (γ Lgt Lbl Dout : Type) where
  fake_tgt_x : GTensor (List γ)
  fake_back_src_x : GTensor (List γ)
  fake_src_x : GTensor (List γ)
  fake_src_pseudo_y : GTensor Lbl
  loss_gen : GTensor ℚ
  loss_dis_s : GTensor ℚ
  loss_dis_t : GTensor ℚ
  loss_dis : GTensor ℚ
  fake_src_x_pool : ImagePool γ
  fake_tgt_x_pool : ImagePool γ

/-- Lines 128-162 of `train.py`, in source order: forward passes
(128-130), pseudo-labels under `torch.no_grad()` (132-133), the
generator/classifier loss accumulation (136-147), the detach of the
three fake batches (150-152), and the discriminator loss accumulation
through the history pools (155-162). -/
def iterForward (N : Nets γ Lgt Lbl Dout) (alpha beta gamma mu new eta : ℚ)
    (src_x : List γ) (src_y : Lbl) (tgt_x : List γ)
    (fake_src_x_pool fake_tgt_x_pool : ImagePool γ)
    (rand_s rand_t : ℕ → PoolRand) : IterOut γ Lgt Lbl Dout :=
  let src_xT : GTensor (List γ) := .leaf src_x
  let src_yT : GTensor Lbl := .leaf src_y
  let tgt_xT : GTensor (List γ) := .leaf tgt_x
  -- lines 128-130
  let fake_tgt_x := applyNet .gen_s_t N.gen_s_t src_xT
  let fake_back_src_x := applyNet .gen_t_s N.gen_t_s fake_tgt_x
  let fake_src_x := applyNet .gen_t_s N.gen_t_s tgt_xT
  -- lines 132-133: computed inside `with torch.no_grad():`
  let fake_src_pseudo_y : GTensor Lbl :=
    .leaf (N.argmax1 (N.cls_s fake_src_x.val))
  -- lines 136-147 (comments `eq2`, `eq3`, `eq5`, `eq6` in the source)
  let loss_gen :=
    smulT beta (ceT N.cross_entropy (applyNet .cls_t N.cls_t fake_tgt_x) src_yT)
  let loss_gen := addT loss_gen
    (smulT mu (ceT N.cross_entropy (applyNet .cls_s N.cls_s src_xT) src_yT))
  let loss_gen := addT loss_gen
    (smulT gamma (lsT N.lsgan (applyNet .dis_s N.dis_s fake_src_x) true))
  let loss_gen := addT loss_gen
    (smulT alpha (lsT N.lsgan (applyNet .dis_t N.dis_t fake_tgt_x) true))
  let loss_gen := addT loss_gen
    (smulT eta (ceT N.cross_entropy (applyNet .cls_s N.cls_s fake_src_x)
      fake_src_pseudo_y))
  let loss_gen := addT loss_gen
    (smulT new (ceT N.cross_entropy (applyNet .cls_s N.cls_s fake_back_src_x)
      src_yT))
  -- lines 150-152
  let fake_tgt_x := fake_tgt_x.detach
  let fake_src_x := fake_src_x.detach
  let fake_back_src_x := fake_back_src_x.detach
  -- lines 155-162
  let qs := fake_src_x_pool.query rand_s fake_src_x.val
  let loss_dis_s :=
    smulT gamma (lsT N.lsgan (applyNet .dis_s N.dis_s (.leaf qs.2)) false)
  let loss_dis_s := addT loss_dis_s
    (smulT gamma (lsT N.lsgan (applyNet .dis_s N.dis_s src_xT) true))
  let qt := fake_tgt_x_pool.query rand_t fake_tgt_x.val
  let loss_dis_t :=
    smulT alpha (lsT N.lsgan (applyNet .dis_t N.dis_t (.leaf qt.2)) false)
  let loss_dis_t := addT loss_dis_t
    (smulT alpha (lsT N.lsgan (applyNet .dis_t N.dis_t tgt_xT) true))
  let loss_dis := addT loss_dis_s loss_dis_t
  { fake_tgt_x := fake_tgt_x, fake_back_src_x := fake_back_src_x,
    fake_src_x := fake_src_x, fake_src_pseudo_y := fake_src_pseudo_y,
    loss_gen := loss_gen, loss_dis_s := loss_dis_s, loss_dis_t := loss_dis_t,
    loss_dis := loss_dis, fake_src_x_pool := qs.1, fake_tgt_x_pool := qt.1 }

/-! ## The optimizer pass (lines 164-167) -/

/-- The mutable optimizer-visible state: each module's parameter vector
and its accumulated gradient buffer (types abstract). -/
structure OptimSt (P G : Type) where
  params : NetModule → P
  grads : NetModule → G

/-- One `opt.zero_grad(); loss.backward(retain_graph=True); opt.step()`
triple (lines 165-167) for the optimizer owning `group`.
`zero_grad` resets the gradient buffers of the group to `gzero`;
`backward` adds a contribution (`contrib`) to the buffer of every
module the loss's graph reaches; `step` replaces the parameters of the
group's modules (and only those) using `upd` on the fresh gradients. -/
def optOne (group : List NetModule) (upd : NetModule → P → G → P) (gzero : G)
    (contrib : NetModule → G → G) (loss : GTensor ℚ) (st : OptimSt P G) :
    OptimSt P G :=
  let zeroed : NetModule → G := fun m => if m ∈ group then gzero else st.grads m
  let grads : NetModule → G :=
    fun m => if m ∈ loss.grad then contrib m (zeroed m) else zeroed m
  let params : NetModule → P :=
    fun m => if m ∈ group then upd m (st.params m) (grads m) else st.params m
  { params := params, grads := grads }

/-- Line 164: `for opt, loss in zip([opt_dis, opt_gen], [loss_dis,
loss_gen])` — the discriminator triple runs first, the
generator/classifier triple second. -/
def optimizerPass (upd : NetModule → P → G → P) (gzero : G)
    (contrib : NetModule → G → G) (loss_dis loss_gen : GTensor ℚ)
    (st : OptimSt P G) : OptimSt P G :=
  optOne gen_group upd gzero contrib loss_gen
    (optOne dis_group upd gzero contrib loss_dis st)

/-- A concrete instance of the line-92 dict for running the loop model.
The `lr` and `weight_decay` scalars stored in it are never read by the
loop body, so their values are irrelevant; what matters is the dict's
key set. -/
def cfg92 : ConfigVal := optimConfig (2/10000) (1/100000)

/-! ## The control-flow order of one iteration (lines 118-167) -/

/-- The operations of one loop iteration that the ordering claims talk
about. -/
inductive Event where
  | fetchBatches | curriculumCheck | forwardGen | pseudoLabels
  | assembleGenLoss | detachFakes | assembleDisLoss
  | zeroGradDis | backwardDis | stepDis
  | zeroGradGen | backwardGen | stepGen
deriving DecidableEq

/-- The order in which one iteration of `train.py` performs its
operations: batch fetch (120-123), curriculum check (125-126), generator
forward passes (128-130), pseudo-labels (132-133), generator loss
accumulation (136-147), detach of the fakes (150-152), discriminator
loss accumulation (155-162), and the optimizer loop (164-167), whose
`zip([opt_dis, opt_gen], [loss_dis, loss_gen])` runs the discriminator
zero-grad/backward/step triple first and the generator triple second. -/
def iterationTrace : List Event :=
  [.fetchBatches, .curriculumCheck, .forwardGen, .pseudoLabels,
   .assembleGenLoss, .detachFakes, .assembleDisLoss,
   .zeroGradDis, .backwardDis, .stepDis,
   .zeroGradGen, .backwardGen, .stepGen]

/-- Position of an operation within the iteration. -/
def evIdx (e : Event) : ℕ := iterationTrace.indexOf e

/-! ## Claim theorems -/

/-- C1 (code_bug evidence): at the first iteration reaching the 75%
curriculum threshold, line 126 evaluates `config['weight']['eta']` on the
dict rebound at line 92, which has no `weight` key: the read raises
`KeyError` instead of yielding the configured `weight.eta`, and the
loop's `eta` still holds its startup value `0.0`.  Shown on the run
`num_epochs = 4`, `iter_per_epoch = 1` (threshold `4 * 0.75 * 1 = 3`):
iteration 2 is still clean, iteration 3 raises. -/
theorem eta_read_at_threshold_raises_keyerror (lr wd : ℚ) :
    etaFromConfig (optimConfig lr wd) = .error (.keyError .weight) ∧
    (runLoop 4 1 cfg92 2).err = none ∧
    (runLoop 4 1 cfg92 3).err = some (.keyError .weight) ∧
    (runLoop 4 1 cfg92 3).eta = 0 :=
  ⟨rfl, by decide, by decide, by decide⟩

/-- C2: the generator/classifier loss of lines 136-147 equals the
weighted sum
`beta·ce(cls_t(fake_tgt_x), src_y) + mu·ce(cls_s(src_x), src_y)
+ gamma·ls(dis_s(fake_src_x), real) + alpha·ls(dis_t(fake_tgt_x), real)
+ eta·ce(cls_s(fake_src_x), pseudo) + new·ce(cls_s(fake_back_src_x), src_y)`,
accumulated in exactly that order with no other terms. -/
theorem loss_gen_is_weighted_sum {γ Lgt Lbl Dout : Type}
    (N : Nets γ Lgt Lbl Dout) (alpha beta gamma mu new eta : ℚ)
    (src_x : List γ) (src_y : Lbl) (tgt_x : List γ)
    (ps pt : ImagePool γ) (rs rt : ℕ → PoolRand) :
    (iterForward N alpha beta gamma mu new eta src_x src_y tgt_x
        ps pt rs rt).loss_gen.val =
      beta * N.cross_entropy (N.cls_t (N.gen_s_t src_x)) src_y
      + mu * N.cross_entropy (N.cls_s src_x) src_y
      + gamma * N.lsgan (N.dis_s (N.gen_t_s tgt_x)) true
      + alpha * N.lsgan (N.dis_t (N.gen_s_t src_x)) true
      + eta * N.cross_entropy (N.cls_s (N.gen_t_s tgt_x))
          (N.argmax1 (N.cls_s (N.gen_t_s tgt_x)))
      + new * N.cross_entropy (N.cls_s (N.gen_t_s (N.gen_s_t src_x))) src_y :=
  rfl

/-- C3 counterexample: in `train.py` the generator/classifier backward
and step do NOT precede the detach of the fakes, and the discriminator
loss assembly and discriminator backward/step do NOT come after the
generator step: the detach (lines 150-152) and the discriminator loss
assembly (155-162) both precede the optimizer loop, and in that loop the
discriminator triple runs before the generator triple (line 164). -/
theorem gen_step_not_before_detach :
    ¬ (evIdx .backwardGen < evIdx .detachFakes ∧
       evIdx .stepGen < evIdx .detachFakes ∧
       evIdx .stepGen < evIdx .assembleDisLoss ∧
       evIdx .stepGen < evIdx .backwardDis ∧
       evIdx .stepGen < evIdx .stepDis) := by decide

/-- C3 amended: within each iteration the generator loss is assembled
before the fakes are detached; the detach precedes the discriminator
loss assembly; and the discriminator zero-grad/backward/step triple runs
after that assembly and before the generator zero-grad/backward/step
triple. -/
theorem iteration_order_detach_then_dis_then_gen :
    evIdx .assembleGenLoss < evIdx .detachFakes ∧
    evIdx .detachFakes < evIdx .assembleDisLoss ∧
    evIdx .assembleDisLoss < evIdx .zeroGradDis ∧
    evIdx .zeroGradDis < evIdx .backwardDis ∧
    evIdx .backwardDis < evIdx .stepDis ∧
    evIdx .stepDis < evIdx .zeroGradGen ∧
    evIdx .zeroGradGen < evIdx .backwardGen ∧
    evIdx .backwardGen < evIdx .stepGen := by decide

/-- C9: the pseudo-label of lines 132-133 is the argmax of
`cls_s(fake_src_x)` and, being computed under `torch.no_grad()`, is a
graph leaf: no module receives gradient through it, so the eta-weighted
self-training term treats it as a frozen constant target. -/
theorem pseudo_label_is_frozen_argmax {γ Lgt Lbl Dout : Type}
    (N : Nets γ Lgt Lbl Dout) (alpha beta gamma mu new eta : ℚ)
    (src_x : List γ) (src_y : Lbl) (tgt_x : List γ)
    (ps pt : ImagePool γ) (rs rt : ℕ → PoolRand) :
    (iterForward N alpha beta gamma mu new eta src_x src_y tgt_x
        ps pt rs rt).fake_src_pseudo_y.val
      = N.argmax1 (N.cls_s (N.gen_t_s tgt_x)) ∧
    (iterForward N alpha beta gamma mu new eta src_x src_y tgt_x
        ps pt rs rt).fake_src_pseudo_y.grad = [] :=
  ⟨rfl, rfl⟩

/-- `epochBoundary` writes the `eta` it is given, in both branches. -/
theorem epochBoundary_eta (num_epochs ipe niter : ℕ) (eta : ℚ) (s : LoopSt) :
    (epochBoundary num_epochs ipe niter eta s).eta = eta := by
  unfold epochBoundary; split <;> rfl

/-- `epochBoundary` writes the `niter` it is given, in both branches. -/
theorem epochBoundary_niter (num_epochs ipe niter : ℕ) (eta : ℚ) (s : LoopSt) :
    (epochBoundary num_epochs ipe niter eta s).niter = niter := by
  unfold epochBoundary; split <;> rfl

/-- Invariant: while the curriculum threshold has not been reached, the
loop's `eta` is still the startup `0.0` of line 45 (the assignment at
line 126 never ran), and the iteration counter never exceeds the number
of executed loop passes. -/
theorem runLoop_eta_zero (num_epochs ipe : ℕ) (cfg : ConfigVal) :
    ∀ n : ℕ, ¬ curriculumHit num_epochs ipe n →
      (runLoop num_epochs ipe cfg n).eta = 0 ∧
      (runLoop num_epochs ipe cfg n).niter ≤ n := by
  intro n
  induction n with
  | zero => exact fun _ => ⟨rfl, Nat.le_refl 0⟩
  | succ n ih =>
    intro h
    rw [curriculumHit_iff] at h
    have hn : ¬ curriculumHit num_epochs ipe n := by
      rw [curriculumHit_iff]; omega
    obtain ⟨he, hni⟩ := ih hn
    have hstep : runLoop num_epochs ipe cfg (n + 1)
        = stepIter num_epochs ipe cfg (runLoop num_epochs ipe cfg n) := by
      simp only [runLoop, Function.iterate_succ_apply']
    rw [hstep]
    set s := runLoop num_epochs ipe cfg n with hs
    by_cases hg : s.done || s.err.isSome
    · unfold stepIter
      rw [if_pos hg]
      exact ⟨he, hni.trans (Nat.le_succ n)⟩
    · have hhit : ¬ curriculumHit num_epochs ipe (s.niter + 1) := by
        rw [curriculumHit_iff]; omega
      unfold stepIter
      rw [if_neg hg, if_neg hhit]
      exact ⟨by rw [epochBoundary_eta]; exact he,
             by rw [epochBoundary_niter]; omega⟩

/-- C4: for every iteration strictly before the 75% curriculum
threshold, the `eta` weight in effect is the exact rational `0`, and a
generator loss assembled with `eta = 0` equals the sum of the five other
weighted terms: the self-training term contributes exactly zero. -/
theorem eta_term_zero_before_threshold {γ Lgt Lbl Dout : Type}
    (N : Nets γ Lgt Lbl Dout) (alpha beta gamma mu new : ℚ)
    (src_x : List γ) (src_y : Lbl) (tgt_x : List γ)
    (ps pt : ImagePool γ) (rs rt : ℕ → PoolRand)
    (num_epochs ipe niter : ℕ) (cfg : ConfigVal)
    (h : ¬ curriculumHit num_epochs ipe niter) :
    (runLoop num_epochs ipe cfg niter).eta = 0 ∧
    (iterForward N alpha beta gamma mu new 0 src_x src_y tgt_x
        ps pt rs rt).loss_gen.val
      = beta * N.cross_entropy (N.cls_t (N.gen_s_t src_x)) src_y
        + mu * N.cross_entropy (N.cls_s src_x) src_y
        + gamma * N.lsgan (N.dis_s (N.gen_t_s tgt_x)) true
        + alpha * N.lsgan (N.dis_t (N.gen_s_t src_x)) true
        + new * N.cross_entropy (N.cls_s (N.gen_t_s (N.gen_s_t src_x)))
            src_y := by
  refine ⟨(runLoop_eta_zero num_epochs ipe cfg niter h).1, ?_⟩
  simp only [iterForward, addT, smulT, lsT, ceT, applyNet, GTensor.leaf]
  ring

/-- Trivial concrete networks over rational batches, for evaluating the
iteration model at a concrete input. -/
def trivialNets : Nets ℚ ℚ ℚ ℚ where
  gen_s_t := fun x => x
  gen_t_s := fun x => x
  cls_s := fun _ => 0
  cls_t := fun _ => 0
  dis_s := fun _ => 0
  dis_t := fun _ => 0
  cross_entropy := fun _ _ => 1
  lsgan := fun _ _ => 1
  argmax1 := fun _ => 0

/-- An empty two-slot pool and a constant random stream, for concrete
evaluation. -/
def trivialPool : ImagePool ℚ := { capacity := 2, images := [] }

/-- A constant stream of pool randomness for concrete evaluation. -/
def trivialRand : ℕ → PoolRand := fun _ => { coin := 0, slot := 0 }

/-- C4 witness: at `num_epochs = 2`, `iter_per_epoch = 2`, iteration 2
is below the threshold `2 · 0.75 · 2 = 3`, and the loop's `eta` there is
exactly `0`. -/
theorem eta_term_zero_before_threshold_witness :
    ¬ curriculumHit 2 2 2 ∧ (runLoop 2 2 cfg92 2).eta = 0 :=
  ⟨by decide,
   (eta_term_zero_before_threshold trivialNets 1 1 1 1 1 [] 0 []
      trivialPool trivialPool trivialRand trivialRand 2 2 2 cfg92
      (by decide)).1⟩

/-- C5: the discriminator loss of lines 155-162 equals
`gamma·ls(dis_s(pool_s.query(fake_src_x)), fake)
+ gamma·ls(dis_s(src_x), real)
+ alpha·ls(dis_t(pool_t.query(fake_tgt_x)), fake)
+ alpha·ls(dis_t(tgt_x), real)`, where the fake inputs go through the
history pools and the real inputs are the raw batches. -/
theorem loss_dis_is_pooled_pair_sum {γ Lgt Lbl Dout : Type}
    (N : Nets γ Lgt Lbl Dout) (alpha beta gamma mu new eta : ℚ)
    (src_x : List γ) (src_y : Lbl) (tgt_x : List γ)
    (ps pt : ImagePool γ) (rs rt : ℕ → PoolRand) :
    (iterForward N alpha beta gamma mu new eta src_x src_y tgt_x
        ps pt rs rt).loss_dis.val =
      gamma * N.lsgan (N.dis_s (ps.query rs (N.gen_t_s tgt_x)).2) false
      + gamma * N.lsgan (N.dis_s src_x) true
      + alpha * N.lsgan (N.dis_t (pt.query rt (N.gen_s_t src_x)).2) false
      + alpha * N.lsgan (N.dis_t tgt_x) true := by
  simp only [iterForward, addT, smulT, lsT, applyNet, GTensor.detach,
    GTensor.leaf]
  ring

/-- C6: the two optimizer triples of lines 164-167 act on disjoint
parameter sets.  The discriminator backward reaches only `dis_s` and
`dis_t` (the fakes were detached at lines 150-152), the discriminator
step leaves every generator/classifier parameter unchanged, the
generator step leaves both discriminator parameters unchanged, the full
optimizer pass is the discriminator triple followed by the generator
triple, and the two parameter groups share no module. -/
theorem optimizer_groups_disjoint_params {γ Lgt Lbl Dout P G : Type}
    (N : Nets γ Lgt Lbl Dout) (alpha beta gamma mu new eta : ℚ)
    (src_x : List γ) (src_y : Lbl) (tgt_x : List γ)
    (ps pt : ImagePool γ) (rs rt : ℕ → PoolRand)
    (upd : NetModule → P → G → P) (gzero : G) (contrib : NetModule → G → G)
    (st : OptimSt P G) :
    let out := iterForward N alpha beta gamma mu new eta src_x src_y tgt_x
      ps pt rs rt
    let st1 := optOne dis_group upd gzero contrib out.loss_dis st
    let st2 := optOne gen_group upd gzero contrib out.loss_gen st1
    out.loss_dis.grad = [.dis_s, .dis_s, .dis_t, .dis_t] ∧
    st1.params .gen_s_t = st.params .gen_s_t ∧
    st1.params .gen_t_s = st.params .gen_t_s ∧
    st1.params .cls_s = st.params .cls_s ∧
    st1.params .cls_t = st.params .cls_t ∧
    st2.params .dis_s = st1.params .dis_s ∧
    st2.params .dis_t = st1.params .dis_t ∧
    optimizerPass upd gzero contrib out.loss_dis out.loss_gen st = st2 ∧
    gen_group.inter dis_group = [] := by
  intro out st1 st2
  exact ⟨rfl, rfl, rfl, rfl, rfl, rfl, rfl, rfl, rfl⟩

/-- C7: with `source_size = 10`, `target_size = 7`, `batch_size = 3`,
`iter_per_epoch = max(10,7)//3 + 1 = 4`; running 200 iterations (with
the default `num_epochs = 200`, whose curriculum threshold 600 lies
beyond them) reaches `epoch = 200 // 4 = 50` and the checkpoint at epoch
50 fires exactly once, with no earlier checkpoint. -/
theorem epoch_checkpoint_arithmetic :
    iter_per_epoch 10 7 3 = 4 ∧
    (runLoop 200 (iter_per_epoch 10 7 3) cfg92 200).niter = 200 ∧
    (runLoop 200 (iter_per_epoch 10 7 3) cfg92 200).epoch = 50 ∧
    (runLoop 200 (iter_per_epoch 10 7 3) cfg92 200).ckpts = [50] ∧
    (runLoop 200 (iter_per_epoch 10 7 3) cfg92 200).err = none := by
  exact ⟨by decide, by decide, by decide, by decide, by decide⟩

/-- C8 (code_bug evidence): with `num_epochs = 1` and
`iter_per_epoch = 1` the claim expects a clean exit via the epoch-count
check after exactly 1 iteration; instead the very first iteration
reaches the threshold `0.75`, raises `KeyError` at line 126 before the
terminal check, and the `break` never executes. -/
theorem loop_aborts_before_terminal_check :
    (runLoop 1 1 cfg92 1).err = some (.keyError .weight) ∧
    (runLoop 1 1 cfg92 1).done = false ∧
    (runLoop 1 1 cfg92 5).done = false ∧
    (runLoop 1 1 cfg92 5).niter = 1 ∧
    (runLoop 1 1 cfg92 5).ckpts = [] := by
  exact ⟨by decide, by decide, by decide, by decide, by decide⟩

/-- C10 (code_bug evidence): with the default `num_epochs = 200` and
`iter_per_epoch = 1`, checkpoints fire at epochs 50 and 100, and the run
then dies with `KeyError` at iteration `150 = 0.75 · 200 · 1` — before
the epoch-150 boundary code runs — so the checkpoints the claim lists at
epochs 150 and 200 never happen. -/
theorem checkpoints_end_at_curriculum_crash :
    (runLoop 200 1 cfg92 200).ckpts = [50, 100] ∧
    (runLoop 200 1 cfg92 200).err = some (.keyError .weight) ∧
    (runLoop 200 1 cfg92 200).niter = 150 ∧
    (runLoop 200 1 cfg92 200).done = false := by
  exact ⟨by decide, by decide, by decide, by decide⟩

/-- Contrast for the line-92 shadowing: on the YAML configuration of
line 38 the line-126 read `config['weight']['eta']` would have returned
the configured `weight.eta`. -/
theorem etaFromConfig_yaml (alpha beta gamma mu new eta batch_size
    pool_size lr weight_decay : ℚ) :
    etaFromConfig (yamlConfig alpha beta gamma mu new eta batch_size
      pool_size lr weight_decay) = .ok eta := rfl
